import Mathlib

/-!
Verification of the GitHub webhook receiver (Flask app: signature
verification, event normalization, persistence, and the recent-events
query) against its natural-language specification.

The Python source is shallowly embedded: JSON values are an inductive
type, Python dict/attribute behaviour (`.get` on a non-dict raises
`AttributeError`) is modelled with `Except`, and the request handlers
become pure functions over an explicit store state.
-/

namespace Webhook

/-- JSON values, as produced by parsing a webhook request body.
Numbers are modelled as integers (the payload fields the code touches
are ids and shas; no float arithmetic occurs in the source). -/
inductive Json where
  | null : Json
  | bool : Bool → Json
  | num : Int → Json
  | str : String → Json
  | arr : List Json → Json
  | obj : List (String × Json) → Json

/-- Model of Python `v == "lit"` for a JSON value and a string literal:
true exactly when `v` is that string (Python cross-type `==` on the
types occurring here is false). -/
def isStrVal (v : Json) (s : String) : Bool :=
  match v with
  | .str t => t == s
  | _ => false

/-- Python truthiness of a JSON value (`if not payload`, `pr.get("merged")`
used as a condition): None, False, 0, empty string/list/dict are falsy. -/
def Json.truthy : Json → Bool
  | .null => false
  | .bool b => b
  | .num n => n != 0
  | .str s => s != ""
  | .arr xs => !xs.isEmpty
  | .obj kvs => !kvs.isEmpty

/-- Python errors raised by the embedded code.  The only error the
webhook module can raise during normalization is `AttributeError`
(calling `.get` or `.replace` on a value that lacks the method). -/
inductive PyErr where
  | attributeError : PyErr
deriving DecidableEq

/-- Last-binding lookup in an association list, matching Python dict
construction from JSON (with duplicate keys, the last one wins). -/
def lookupLast (kvs : List (String × Json)) (k : String) : Option Json :=
  kvs.foldl (fun acc kv => if kv.1 = k then some kv.2 else acc) none

/-- Model of Python `v.get(k, dflt)`: only dicts have `.get`; on any
other JSON value it raises `AttributeError`. -/
def pyGet (v : Json) (k : String) (dflt : Json) : Except PyErr Json :=
  match v with
  | .obj kvs => .ok ((lookupLast kvs k).getD dflt)
  | _ => .error .attributeError

/-- Total lookup used in specification statements: the value at key `k`
when `v` is an object containing it, else `none`. -/
def jGet (v : Json) (k : String) : Option Json :=
  match v with
  | .obj kvs => lookupLast kvs k
  | _ => none

/-- Total lookup with default, used in specification statements. -/
def jGetD (v : Json) (k : String) (dflt : Json) : Json :=
  (jGet v k).getD dflt

/-- Whether a JSON value is an object (a Python dict). -/
def isObj : Json → Bool
  | .obj _ => true
  | _ => false

/-- Whether a JSON value is a string. -/
def isStr : Json → Bool
  | .str _ => true
  | _ => false

/-- Key `k` is either absent from `v` or maps to an object: exactly the
payload shapes on which a `payload.get(k, {}).get(...)` chain cannot
raise. -/
def objOrAbsent (v : Json) (k : String) : Bool :=
  match jGet v k with
  | none => true
  | some w => isObj w

/-- Key `k` is either absent from `v` or maps to a string. -/
def strOrAbsent (v : Json) (k : String) : Bool :=
  match jGet v k with
  | none => true
  | some w => isStr w

/-- Model of calling a `str` method (here `.replace`) on a JSON value:
only strings succeed, anything else raises `AttributeError`. -/
def asStr : Json → Except PyErr String
  | .str s => .ok s
  | _ => .error .attributeError

/-- If `pat` is an initial segment of `s`, the remainder of `s` after
it; otherwise `none`. -/
def listSub : List Char → List Char → Option (List Char)
  | [], s => some s
  | _ :: _, [] => none
  | p :: ps, c :: cs => if p = c then listSub ps cs else none

/-- Worker for `pyReplace`, structurally recursive on a fuel argument
so it evaluates by kernel reduction; fuel at least the length of the
scanned list is always sufficient (each step consumes at least one
character). -/
def replCharsF (pat rep : List Char) : Nat → List Char → List Char
  | _, [] => []
  | 0, s => s
  | n + 1, c :: cs =>
    match pat with
    | [] => c :: cs
    | p :: ps =>
      if p = c then
        match listSub ps cs with
        | some rest => rep ++ replCharsF pat rep n rest
        | none => c :: replCharsF pat rep n cs
      else c :: replCharsF pat rep n cs

/-- Model of Python `s.replace(pat, rep)`: replaces every non-overlapping
occurrence of `pat` in `s`, scanning left to right.  (The source only
calls it with the non-empty pattern `refs/heads/`; the empty-pattern
case is modelled as the identity and never reached.) -/
def pyReplace (s pat rep : String) : String :=
  ⟨replCharsF pat.data rep.data s.data.length s.data⟩

/-- A single quote character, used by the Python `repr` model. -/
def sq : Char := Char.ofNat 39

mutual
/-- Model of Python `repr` on JSON-decoded values (scalars, lists,
dicts), as used by `str()` on non-string containers. -/
def pyRepr : Json → String
  | .null => "None"
  | .bool true => "True"
  | .bool false => "False"
  | .num n => toString n
  | .str s => sq.toString ++ s ++ sq.toString
  | .arr xs => "[" ++ pyReprList xs ++ "]"
  | .obj kvs => "\x7b" ++ pyReprPairs kvs ++ "\x7d"

/-- Comma-separated `repr` of list elements. -/
def pyReprList : List Json → String
  | [] => ""
  | [x] => pyRepr x
  | x :: y :: xs => pyRepr x ++ ", " ++ pyReprList (y :: xs)

/-- Comma-separated `repr` of dict entries. -/
def pyReprPairs : List (String × Json) → String
  | [] => ""
  | [kv] => sq.toString ++ kv.1 ++ sq.toString ++ ": " ++ pyRepr kv.2
  | kv :: kw :: xs =>
    sq.toString ++ kv.1 ++ sq.toString ++ ": " ++ pyRepr kv.2 ++ ", " ++
      pyReprPairs (kw :: xs)
end

/-- Model of Python `str()` on a JSON-decoded value
(`str(pr.get("id", "unknown"))` in the source): strings pass through,
everything else uses `repr`-style rendering. -/
def pyStr : Json → String
  | .str s => s
  | v => pyRepr v

/-- The placeholder webhook secret recognized by the source
(`"your-webhook-secret-here"`). -/
def placeholderSecret : String := "your-webhook-secret-here"

/-- Python falsiness of an optional string (`if not secret`,
`if not signature_header`): absent or empty. -/
def optStrFalsy : Option String → Bool
  | none => true
  | some s => s == ""

/-- Embedding of `verify_webhook_signature(payload_body,
signature_header, secret)` from `app/webhook/routes.py`.

`hmacHex secret body` stands for the hex digest
`hmac.new(secret.encode("utf-8"), msg=body, digestmod=hashlib.sha256)
.hexdigest()` computed by the Python standard library; the function is
abstract here and the theorems quantify over it.  `hmac.compare_digest`
is functionally string equality (its constant-time execution is a
timing property outside this embedding). -/
def verify_webhook_signature (hmacHex : String → String → String)
    (payload_body : String) (signature_header : Option String)
    (secret : Option String) : Bool :=
  if optStrFalsy secret || secret == some placeholderSecret then
    true
  else if optStrFalsy signature_header then
    false
  else
    "sha256=" ++ hmacHex (secret.getD "") payload_body == signature_header.getD ""

/-- The `event_data` dict the receiver builds and inserts into the
store.  Field values are JSON values, exactly as Python stores whatever
the payload lookups produced; `action` is always one of the literal
strings the source writes, and `timestamp` is the
`datetime.utcnow().isoformat()` string, passed in as `now`. -/
structure EventData where
  request_id : Json
  author : Json
  action : String
  from_branch : Json
  to_branch : Json
  timestamp : String

/-- Embedding of the event-extraction section of `receiver`
(`app/webhook/routes.py`, the `if event_type == "push"` /
`elif event_type == "pull_request"` dispatch): given the
`X-GitHub-Event` header and the parsed payload it produces the
`event_data` dict, `none` when the event is not handled, or the Python
error the dict construction raises.  Lookups follow the evaluation
order of the source. -/
def normalize (event_type : Option String) (payload : Json) (now : String) :
    Except PyErr (Option EventData) :=
  if event_type = some "push" then
    (pyGet payload "after" (.str "unknown")).bind fun after =>
    (pyGet payload "pusher" (.obj [])).bind fun pusher =>
    (pyGet pusher "name" (.str "Unknown")).bind fun name =>
    (pyGet payload "ref" (.str "")).bind fun ref =>
    (asStr ref).bind fun refS =>
    .ok (some { request_id := after, author := name, action := "PUSH",
                from_branch := Json.null,
                to_branch := .str (pyReplace refS "refs/heads/" ""),
                timestamp := now })
  else if event_type = some "pull_request" then
    (pyGet payload "action" .null).bind fun action =>
    (pyGet payload "pull_request" (.obj [])).bind fun pr =>
    if isStrVal action "opened" || isStrVal action "reopened" then
      (pyGet pr "id" (.str "unknown")).bind fun prid =>
      (pyGet pr "user" (.obj [])).bind fun user =>
      (pyGet user "login" (.str "Unknown")).bind fun login =>
      (pyGet pr "head" (.obj [])).bind fun head =>
      (pyGet head "ref" (.str "unknown")).bind fun headRef =>
      (pyGet pr "base" (.obj [])).bind fun base =>
      (pyGet base "ref" (.str "unknown")).bind fun baseRef =>
      .ok (some { request_id := .str (pyStr prid), author := login,
                  action := "PULL_REQUEST", from_branch := headRef,
                  to_branch := baseRef, timestamp := now })
    else if isStrVal action "closed" then
      (pyGet pr "merged" .null).bind fun merged =>
      if merged.truthy then
        (pyGet pr "merge_commit_sha" (.str "unknown")).bind fun sha =>
        (pyGet pr "merged_by" (.obj [])).bind fun mergedBy =>
        (pyGet mergedBy "login" (.str "Unknown")).bind fun login =>
        (pyGet pr "head" (.obj [])).bind fun head =>
        (pyGet head "ref" (.str "unknown")).bind fun headRef =>
        (pyGet pr "base" (.obj [])).bind fun base =>
        (pyGet base "ref" (.str "unknown")).bind fun baseRef =>
        .ok (some { request_id := sha, author := login, action := "MERGE",
                    from_branch := headRef, to_branch := baseRef,
                    timestamp := now })
      else .ok none
    else .ok none
  else .ok none

/-- Responses the webhook endpoint can produce.  `pythonError` stands
for an exception escaping the handler (surfaced by the framework as an
internal server error), which the source does not catch in the
normalization section. -/
inductive Resp where
  | invalidSignature : Resp
  | invalidJson : Resp
  | noPayload : Resp
  | ignored : Resp
  | success : String → Resp
  | dbError : Resp
  | pythonError : Resp
deriving DecidableEq

/-- HTTP status code of each response, as written in the
`return jsonify(...), code` pairs of the source (500 for an uncaught exception). -/
def httpStatus : Resp → Nat
  | .invalidSignature => 401
  | .invalidJson => 400
  | .noPayload => 400
  | .ignored => 200
  | .success _ => 200
  | .dbError => 500
  | .pythonError => 500

/-- A persisted event: the store-assigned id together with the inserted
`event_data`.  Models a document of the `events` collection. -/
structure StoredEvent where
  oid : Nat
  data : EventData

/-- Model of `insert_one` on the external document store (spec section 4.3:
the store is an external collaborator): appends the record under a
fresh store-assigned id and returns that id. -/
def insertEvent (store : List StoredEvent) (ed : EventData) :
    Nat × List StoredEvent :=
  (store.length, store ++ [⟨store.length, ed⟩])

/-- The signature gate at the top of `receiver`: a real (non-empty,
non-placeholder) secret is configured and verification fails. -/
def sigGateRejects (hmacHex : String → String → String)
    (webhook_secret : Option String) (signature : Option String)
    (rawBody : String) : Bool :=
  !optStrFalsy webhook_secret && webhook_secret != some placeholderSecret &&
    !verify_webhook_signature hmacHex rawBody signature webhook_secret

/-- Embedding of the `receiver` handler (`POST /webhook/receiver`).

Inputs: the abstract HMAC function, the configured secret, the
`X-GitHub-Event` and `X-Hub-Signature-256` headers, the raw body, the
outcome of `request.json` (`none` when parsing raised, handled by the
`except` branch of the source), the current UTC timestamp string, whether
the store insert succeeds (`dbOk`, modelling `StorageError`), and the
store state.  Output: the response and the new store state.  The final
`print` of the ignored branch evaluates `payload.get("action", ...)`,
which raises on non-dict payloads, so it is modelled. -/
def receiver (hmacHex : String → String → String)
    (webhook_secret : Option String) (event_type signature : Option String)
    (rawBody : String) (parsed : Option Json) (now : String) (dbOk : Bool)
    (store : List StoredEvent) : Resp × List StoredEvent :=
  if sigGateRejects hmacHex webhook_secret signature rawBody then
    (.invalidSignature, store)
  else
    match parsed with
    | none => (.invalidJson, store)
    | some payload =>
      if !payload.truthy then
        (.noPayload, store)
      else
        match normalize event_type payload now with
        | .error _ => (.pythonError, store)
        | .ok (some ed) =>
          if dbOk then
            ((.success (toString (insertEvent store ed).1)),
              (insertEvent store ed).2)
          else
            (.dbError, store)
        | .ok none =>
          match pyGet payload "action" (.str "no action") with
          | .error _ => (.pythonError, store)
          | .ok _ => (.ignored, store)

/-- Ordering used by the events query: newer timestamp first. -/
def tsGe (a b : StoredEvent) : Prop :=
  b.data.timestamp ≤ a.data.timestamp

instance : DecidableRel tsGe := fun a b =>
  inferInstanceAs (Decidable (b.data.timestamp ≤ a.data.timestamp))

instance : IsTotal StoredEvent tsGe :=
  ⟨fun a b => (le_total a.data.timestamp b.data.timestamp).symm⟩

instance : IsTrans StoredEvent tsGe :=
  ⟨fun _ _ _ h1 h2 => le_trans h2 h1⟩

/-- Embedding of the `GET /api/events` handler (`app/__init__.py`,
`get_events`): `find().sort("timestamp", -1).limit(10)` over the external
store — sort descending by timestamp, truncate to 10 — then the `_id` of each
document rendered as a string.  Returns the HTTP status and the
serialized list. -/
def get_events (store : List StoredEvent) :
    Nat × List (String × EventData) :=
  (200,
    ((List.insertionSort tsGe store).take 10).map fun e =>
      (toString e.oid, e.data))

/-! ### Bridge lemmas for the Python lookup model -/

theorem okBind {α β : Type} (a : α) (f : α → Except PyErr β) :
    (Except.ok a).bind f = f a := rfl

theorem errBind {α β : Type} (e : PyErr) (f : α → Except PyErr β) :
    (Except.error e : Except PyErr α).bind f = .error e := rfl

theorem pyGet_of_isObj (p : Json) (k : String) (d : Json)
    (hp : isObj p = true) : pyGet p k d = .ok (jGetD p k d) := by
  cases p <;> simp_all [isObj, pyGet, jGetD, jGet]

theorem isObj_jGetD (p : Json) (k : String)
    (h : objOrAbsent p k = true) : isObj (jGetD p k (.obj [])) = true := by
  unfold objOrAbsent at h
  unfold jGetD
  cases hj : jGet p k <;> simp_all [isObj]

theorem jGetD_str (p : Json) (k d : String)
    (h : strOrAbsent p k = true) : ∃ s, jGetD p k (.str d) = .str s := by
  unfold strOrAbsent at h
  unfold jGetD
  cases hj : jGet p k with
  | none => exact ⟨d, rfl⟩
  | some w => cases w <;> simp_all [isStr]

/-! ### Claim-side (specification) records and payload-shape predicates

The `spec...Event` records below transcribe the dispatch table of the
specification (section 4.2) so theorems can compare the embedded code
against it. -/

/-- The string the push branch calls `.replace` on: `payload.ref` when
present (a string), `""` when absent. -/
def refStr (p : Json) : String :=
  match jGetD p "ref" (.str "") with
  | .str s => s
  | _ => ""

/-- `payload.pull_request` with the `\x7b\x7d` default used by the source. -/
def prOf (p : Json) : Json := jGetD p "pull_request" (.obj [])

/-- Per the push row of the spec: request_id from `after` (default
`unknown`), author from `pusher.name` (default `Unknown`), action PUSH,
no from_branch, to_branch from `ref` — with every occurrence of
`refs/heads/` removed, which is what the `.replace` call in the code does
(the words of the spec say only the leading occurrence). -/
def specPushEvent (p : Json) (now : String) : EventData :=
  { request_id := jGetD p "after" (.str "unknown"),
    author := jGetD (jGetD p "pusher" (.obj [])) "name" (.str "Unknown"),
    action := "PUSH",
    from_branch := .null,
    to_branch := .str (pyReplace (refStr p) "refs/heads/" ""),
    timestamp := now }

/-- Per the pull_request opened/reopened row of the spec. -/
def specOpenedEvent (p : Json) (now : String) : EventData :=
  { request_id := .str (pyStr (jGetD (prOf p) "id" (.str "unknown"))),
    author := jGetD (jGetD (prOf p) "user" (.obj [])) "login" (.str "Unknown"),
    action := "PULL_REQUEST",
    from_branch := jGetD (jGetD (prOf p) "head" (.obj [])) "ref" (.str "unknown"),
    to_branch := jGetD (jGetD (prOf p) "base" (.obj [])) "ref" (.str "unknown"),
    timestamp := now }

/-- Per the pull_request closed-and-merged row of the spec. -/
def specMergeEvent (p : Json) (now : String) : EventData :=
  { request_id := jGetD (prOf p) "merge_commit_sha" (.str "unknown"),
    author := jGetD (jGetD (prOf p) "merged_by" (.obj [])) "login" (.str "Unknown"),
    action := "MERGE",
    from_branch := jGetD (jGetD (prOf p) "head" (.obj [])) "ref" (.str "unknown"),
    to_branch := jGetD (jGetD (prOf p) "base" (.obj [])) "ref" (.str "unknown"),
    timestamp := now }

/-- Shapes under which the push branch cannot raise: the payload is a
dict, `pusher` (if present) is a dict, `ref` (if present) is a string. -/
def pushShape (p : Json) : Bool :=
  isObj p && objOrAbsent p "pusher" && strOrAbsent p "ref"

/-- Shapes under which the opened/reopened branch cannot raise. -/
def prOpenedShape (p : Json) : Bool :=
  isObj p && objOrAbsent p "pull_request" &&
  objOrAbsent (prOf p) "user" && objOrAbsent (prOf p) "head" &&
  objOrAbsent (prOf p) "base"

/-- Shapes under which the closed branch cannot raise. -/
def prClosedShape (p : Json) : Bool :=
  isObj p && objOrAbsent p "pull_request" &&
  objOrAbsent (prOf p) "merged_by" && objOrAbsent (prOf p) "head" &&
  objOrAbsent (prOf p) "base"

/-- Payload shapes on which `normalize` cannot raise, per event type:
every intermediate key that the traversal dereferences is, when
present, of the dereferenced type; absent keys are always fine. -/
def normWF (et : Option String) (p : Json) : Bool :=
  if et = some "push" then
    pushShape p
  else if et = some "pull_request" then
    isObj p && objOrAbsent p "pull_request" &&
      (if isStrVal (jGetD p "action" .null) "opened" ||
          isStrVal (jGetD p "action" .null) "reopened" then
        objOrAbsent (prOf p) "user" && objOrAbsent (prOf p) "head" &&
          objOrAbsent (prOf p) "base"
      else if isStrVal (jGetD p "action" .null) "closed" then
        !(jGetD (prOf p) "merged" .null).truthy ||
          (objOrAbsent (prOf p) "merged_by" && objOrAbsent (prOf p) "head" &&
            objOrAbsent (prOf p) "base")
      else true)
  else true

/-! ### Computation lemmas for `normalize` -/

theorem normalize_push_eq (p : Json) (now : String) (hp : isObj p = true)
    (hpu : objOrAbsent p "pusher" = true)
    (hr : strOrAbsent p "ref" = true) :
    normalize (some "push") p now = .ok (some (specPushEvent p now)) := by
  obtain ⟨s, hs⟩ := jGetD_str p "ref" "" hr
  unfold normalize
  rw [if_pos rfl, pyGet_of_isObj _ _ _ hp, okBind, pyGet_of_isObj _ _ _ hp,
    okBind, pyGet_of_isObj _ _ _ (isObj_jGetD _ _ hpu), okBind,
    pyGet_of_isObj _ _ _ hp, okBind, hs]
  simp [asStr, okBind, specPushEvent, refStr, hs]

theorem normalize_opened_eq (p : Json) (now : String)
    (hs : prOpenedShape p = true)
    (ha : isStrVal (jGetD p "action" .null) "opened" = true ∨
      isStrVal (jGetD p "action" .null) "reopened" = true) :
    normalize (some "pull_request") p now =
      .ok (some (specOpenedEvent p now)) := by
  unfold prOpenedShape at hs
  simp only [Bool.and_eq_true] at hs
  obtain ⟨⟨⟨⟨hp, hpr⟩, hu⟩, hh⟩, hb⟩ := hs
  unfold normalize
  rw [if_neg (by simp), if_pos rfl, pyGet_of_isObj _ _ _ hp, okBind,
    pyGet_of_isObj _ _ _ hp, okBind]
  have hcond : (isStrVal (jGetD p "action" .null) "opened" ||
      isStrVal (jGetD p "action" .null) "reopened") = true := by
    rcases ha with h | h <;> simp [h]
  rw [if_pos hcond]
  simp only [prOf] at hu hh hb
  rw [pyGet_of_isObj _ _ _ (isObj_jGetD _ _ hpr), okBind,
    pyGet_of_isObj _ _ _ (isObj_jGetD _ _ hpr), okBind,
    pyGet_of_isObj _ _ _ (isObj_jGetD _ _ hu), okBind,
    pyGet_of_isObj _ _ _ (isObj_jGetD _ _ hpr), okBind,
    pyGet_of_isObj _ _ _ (isObj_jGetD _ _ hh), okBind,
    pyGet_of_isObj _ _ _ (isObj_jGetD _ _ hpr), okBind,
    pyGet_of_isObj _ _ _ (isObj_jGetD _ _ hb), okBind]
  rfl

theorem normalize_closed_eq (p : Json) (now : String)
    (hs : prClosedShape p = true)
    (ha : jGetD p "action" .null = .str "closed") :
    normalize (some "pull_request") p now =
      if (jGetD (prOf p) "merged" .null).truthy then
        .ok (some (specMergeEvent p now))
      else .ok none := by
  unfold prClosedShape at hs
  simp only [Bool.and_eq_true] at hs
  obtain ⟨⟨⟨⟨hp, hpr⟩, hm⟩, hh⟩, hb⟩ := hs
  unfold normalize
  rw [if_neg (by simp), if_pos rfl, pyGet_of_isObj _ _ _ hp, okBind,
    pyGet_of_isObj _ _ _ hp, okBind, ha]
  rw [if_neg (by simp [isStrVal]), if_pos (by simp [isStrVal])]
  simp only [prOf] at hm hh hb ⊢
  rw [pyGet_of_isObj _ _ _ (isObj_jGetD _ _ hpr), okBind]
  by_cases hmt :
    (jGetD (jGetD p "pull_request" (Json.obj [])) "merged" .null).truthy
  · rw [if_pos hmt, if_pos hmt]
    rw [pyGet_of_isObj _ _ _ (isObj_jGetD _ _ hpr), okBind,
      pyGet_of_isObj _ _ _ (isObj_jGetD _ _ hpr), okBind,
      pyGet_of_isObj _ _ _ (isObj_jGetD _ _ hm), okBind,
      pyGet_of_isObj _ _ _ (isObj_jGetD _ _ hpr), okBind,
      pyGet_of_isObj _ _ _ (isObj_jGetD _ _ hh), okBind,
      pyGet_of_isObj _ _ _ (isObj_jGetD _ _ hpr), okBind,
      pyGet_of_isObj _ _ _ (isObj_jGetD _ _ hb), okBind]
    rfl
  · rw [if_neg hmt, if_neg hmt]

theorem normalize_other (et : Option String) (p : Json) (now : String)
    (h1 : et ≠ some "push") (h2 : et ≠ some "pull_request") :
    normalize et p now = .ok none := by
  unfold normalize
  rw [if_neg h1, if_neg h2]

theorem bindEqOk {α β : Type} (e : Except PyErr α) (f : α → Except PyErr β)
    (v : β) : e.bind f = .ok v ↔ ∃ a, e = .ok a ∧ f a = .ok v := by
  cases e <;> simp [Except.bind]

theorem pyGet_ok_val (p : Json) (k : String) (d v : Json)
    (h : pyGet p k d = .ok v) : isObj p = true ∧ jGetD p k d = v := by
  cases p <;> simp_all [pyGet, isObj, jGetD, jGet]

theorem isStrVal_eq (v : Json) (s : String) (h : isStrVal v s = true) :
    v = .str s := by
  cases v <;> simp_all [isStrVal]

/-- Closed pull_request with falsy `merged` is ignored; only the
payload and `pull_request` values need to be dict-shaped. -/
theorem normalize_closed_unmerged (p : Json) (now : String)
    (hp : isObj p = true) (hpr : objOrAbsent p "pull_request" = true)
    (ha : jGetD p "action" .null = .str "closed")
    (hm : (jGetD (prOf p) "merged" .null).truthy = false) :
    normalize (some "pull_request") p now = .ok none := by
  unfold normalize
  rw [if_neg (by simp), if_pos rfl, pyGet_of_isObj _ _ _ hp, okBind,
    pyGet_of_isObj _ _ _ hp, okBind, ha]
  rw [if_neg (by simp [isStrVal]), if_pos (by simp [isStrVal])]
  simp only [prOf] at hm
  rw [pyGet_of_isObj _ _ _ (isObj_jGetD _ _ hpr), okBind, hm]
  simp

/-- A pull_request action other than opened/reopened/closed is
ignored. -/
theorem normalize_pr_other (p : Json) (now : String) (hp : isObj p = true)
    (h1 : isStrVal (jGetD p "action" .null) "opened" = false)
    (h2 : isStrVal (jGetD p "action" .null) "reopened" = false)
    (h3 : isStrVal (jGetD p "action" .null) "closed" = false) :
    normalize (some "pull_request") p now = .ok none := by
  unfold normalize
  rw [if_neg (by simp), if_pos rfl, pyGet_of_isObj _ _ _ hp, okBind,
    pyGet_of_isObj _ _ _ hp, okBind]
  rw [if_neg (by simp [h1, h2]), if_neg (by simp [h3])]

/-- Whenever `normalize` produces an event, its `action` is one of the
three literals, and a PUSH event has a null `from_branch`. -/
theorem normalize_ok_action (et : Option String) (p : Json) (now : String)
    (ed : EventData) (h : normalize et p now = .ok (some ed)) :
    (ed.action = "PUSH" ∨ ed.action = "PULL_REQUEST" ∨ ed.action = "MERGE") ∧
    (ed.action = "PUSH" → ed.from_branch = Json.null) := by
  unfold normalize at h
  split at h
  · simp only [bindEqOk] at h
    obtain ⟨a1, -, a2, -, a3, -, a4, -, a5, -, hfin⟩ := h
    simp only [Except.ok.injEq, Option.some.injEq] at hfin
    subst hfin
    exact ⟨Or.inl rfl, fun _ => rfl⟩
  · split at h
    · simp only [bindEqOk] at h
      obtain ⟨action, -, pr, -, hif⟩ := h
      split at hif
      · simp only [bindEqOk] at hif
        obtain ⟨b1, -, b2, -, b3, -, b4, -, b5, -, b6, -, b7, -, hfin⟩ := hif
        simp only [Except.ok.injEq, Option.some.injEq] at hfin
        subst hfin
        refine ⟨Or.inr (Or.inl rfl), fun hc => ?_⟩
        simp at hc
      · split at hif
        · simp only [bindEqOk] at hif
          obtain ⟨merged, -, hif2⟩ := hif
          split at hif2
          · simp only [bindEqOk] at hif2
            obtain ⟨c1, -, c2, -, c3, -, c4, -, c5, -, c6, -, c7, -, hfin⟩ :=
              hif2
            simp only [Except.ok.injEq, Option.some.injEq] at hfin
            subst hfin
            refine ⟨Or.inr (Or.inr rfl), fun hc => ?_⟩
            simp at hc
          · simp at hif2
        · simp at hif
    · simp at h

/-- Whenever the pull_request branch produces a MERGE event, the
action of the payload was the string `closed` and `pull_request.merged` was
truthy. -/
theorem normalize_merge_action (p : Json) (now : String) (ed : EventData)
    (h : normalize (some "pull_request") p now = .ok (some ed))
    (hm : ed.action = "MERGE") :
    jGetD p "action" Json.null = .str "closed" ∧
    (jGetD (prOf p) "merged" Json.null).truthy = true := by
  unfold normalize at h
  rw [if_neg (by simp), if_pos rfl] at h
  simp only [bindEqOk] at h
  obtain ⟨action, hact, pr, hpr, hif⟩ := h
  obtain ⟨hobj, hactv⟩ := pyGet_ok_val _ _ _ _ hact
  obtain ⟨-, hprv⟩ := pyGet_ok_val _ _ _ _ hpr
  split at hif
  · simp only [bindEqOk] at hif
    obtain ⟨b1, -, b2, -, b3, -, b4, -, b5, -, b6, -, b7, -, hfin⟩ := hif
    simp only [Except.ok.injEq, Option.some.injEq] at hfin
    subst hfin
    simp at hm
  · split at hif
    · rename_i hclosed
      simp only [bindEqOk] at hif
      obtain ⟨merged, hmg, hif2⟩ := hif
      obtain ⟨-, hmgv⟩ := pyGet_ok_val _ _ _ _ hmg
      split at hif2
      · rename_i htr
        refine ⟨?_, ?_⟩
        · rw [hactv]
          exact isStrVal_eq _ _ hclosed
        · unfold prOf
          rw [hprv, hmgv]
          exact htr
      · simp at hif2
    · simp at hif

theorem sha256_ne_empty (y : String) : "sha256=" ++ y ≠ "" := by
  intro hcontra
  have hd := congrArg String.data hcontra
  simp [String.data_append] at hd

/-! ### Claim theorems -/

/-- Claim C1: `verify_webhook_signature(B, H, S)` returns true if `S`
is absent, empty, or the placeholder; otherwise it returns false when
`H` is absent, and returns true exactly when `H` equals `sha256=`
followed by the hex HMAC-SHA256 of `B` keyed by `S` (here the abstract
`hmacHex`). -/
theorem claim_C1_verify (hmacHex : String → String → String) (body : String)
    (sig secret : Option String) :
    ((secret = none ∨ secret = some "" ∨ secret = some placeholderSecret) →
      verify_webhook_signature hmacHex body sig secret = true) ∧
    (secret ≠ none → secret ≠ some "" → secret ≠ some placeholderSecret →
      (sig = none → verify_webhook_signature hmacHex body sig secret = false) ∧
      (verify_webhook_signature hmacHex body sig secret = true ↔
        sig = some ("sha256=" ++ hmacHex (secret.getD "") body))) := by
  constructor
  · intro h
    unfold verify_webhook_signature
    rcases h with h | h | h <;> simp [h, optStrFalsy, placeholderSecret]
  · intro h1 h2 h3
    have hby : (optStrFalsy secret || secret == some placeholderSecret) =
        false := by
      cases secret with
      | none => exact absurd rfl h1
      | some s =>
        simp only [optStrFalsy, Bool.or_eq_false_iff, beq_eq_false_iff_ne]
        exact ⟨by simpa using fun hc => h2 (by simp [hc]), by
          intro hc
          exact h3 hc⟩
    constructor
    · intro hs
      unfold verify_webhook_signature
      rw [hby]
      simp [hs, optStrFalsy]
    · unfold verify_webhook_signature
      rw [hby]
      simp only [Bool.false_eq_true, if_false]
      cases sig with
      | none => simp [optStrFalsy, sha256_ne_empty]
      | some h =>
        by_cases hemp : h = ""
        · subst hemp
          simp [optStrFalsy]
          exact fun hc => sha256_ne_empty _ hc.symm
        · simp [optStrFalsy, hemp]
          constructor
          · intro hc
            exact hc.symm
          · intro hc
            exact hc.symm

/-- Witness for C1: a non-placeholder secret with an absent signature
header is rejected. -/
theorem claim_C1_verify_witness :
    (some "s" : Option String) ≠ none ∧
    (some "s" : Option String) ≠ some "" ∧
    (some "s" : Option String) ≠ some placeholderSecret ∧
    verify_webhook_signature (fun _ _ => "00") "b" none (some "s") = false :=
  ⟨by simp, by simp, by simp [placeholderSecret],
    ((claim_C1_verify (fun _ _ => "00") "b" none (some "s")).2 (by simp)
      (by simp) (by simp [placeholderSecret])).1 rfl⟩

/-- Counterexample for C2: the claim says normalization never fails
for any JSON-valid payload, including null or non-object values at any
nesting level; but a push payload whose `pusher` key is present and
null makes `payload.get("pusher", {}).get("name", "Unknown")` call
`.get` on `None`, raising `AttributeError`. -/
theorem claim_C2_counterexample :
    normalize (some "push") (.obj [("pusher", .null)]) "t" =
      .error .attributeError := rfl

/-- Whether an `Except` result is a success. -/
def exOk {α : Type} : Except PyErr α → Bool
  | .ok _ => true
  | .error _ => false

/-- Claim C2 as amended: normalization never fails provided every
present intermediate value the traversal dereferences is of the
dereferenced type (dicts where `.get` is called, a string where
`.replace` is called); absent keys at any level are always safe and
degrade to the default sentinel strings.  Payloads carrying null or
other non-dict values at those positions instead raise (see the
counterexample). -/
theorem claim_C2_amended (et : Option String) (p : Json) (now : String)
    (h : normWF et p = true) : exOk (normalize et p now) = true := by
  by_cases h1 : et = some "push"
  · subst h1
    unfold normWF at h
    rw [if_pos rfl] at h
    unfold pushShape at h
    simp only [Bool.and_eq_true] at h
    obtain ⟨⟨hp, hpu⟩, hr⟩ := h
    rw [normalize_push_eq p now hp hpu hr]
    rfl
  · by_cases h2 : et = some "pull_request"
    · subst h2
      unfold normWF at h
      rw [if_neg h1, if_pos rfl] at h
      simp only [Bool.and_eq_true] at h
      obtain ⟨⟨hp, hpr⟩, hrest⟩ := h
      by_cases hc1 : (isStrVal (jGetD p "action" .null) "opened" ||
          isStrVal (jGetD p "action" .null) "reopened") = true
      · rw [if_pos hc1] at hrest
        simp only [Bool.and_eq_true] at hrest
        obtain ⟨⟨hu, hh⟩, hb⟩ := hrest
        rw [normalize_opened_eq p now
          (by simp [prOpenedShape, hp, hpr, hu, hh, hb])
          (by simpa using hc1)]
        rfl
      · rw [if_neg hc1] at hrest
        simp only [Bool.or_eq_true, not_or] at hc1
        obtain ⟨ho, hro⟩ := hc1
        by_cases hc2 : isStrVal (jGetD p "action" .null) "closed" = true
        · rw [if_pos hc2] at hrest
          have hact := isStrVal_eq _ _ hc2
          rcases Bool.or_eq_true _ _ |>.mp hrest with hm | hsh
          · rw [normalize_closed_unmerged p now hp hpr hact
              (by simpa using hm)]
            rfl
          · simp only [Bool.and_eq_true] at hsh
            obtain ⟨⟨hmb, hh⟩, hb⟩ := hsh
            rw [normalize_closed_eq p now
              (by simp [prClosedShape, hp, hpr, hmb, hh, hb]) hact]
            by_cases hmt : (jGetD (prOf p) "merged" .null).truthy = true
            · rw [if_pos hmt]
              rfl
            · rw [if_neg hmt]
              rfl
        · rw [normalize_pr_other p now hp (by simpa using ho)
            (by simpa using hro) (by simpa using hc2)]
          rfl
    · rw [normalize_other et p now h1 h2]
      rfl

/-- Witness for C2 (amended): a well-shaped push payload normalizes
without error. -/
theorem claim_C2_amended_witness :
    normWF (some "push") (.obj [("after", .str "a")]) = true ∧
    exOk (normalize (some "push") (.obj [("after", .str "a")]) "t") = true :=
  ⟨rfl, claim_C2_amended (some "push") (.obj [("after", .str "a")]) "t" rfl⟩

/-- Claim-side definition following the words of C3: `payload.ref` with only
the leading `refs/heads/` stripped. -/
def specStripLeading (s : String) : String :=
  match listSub "refs/heads/".data s.data with
  | some rest => ⟨rest⟩
  | none => s

/-- The payload exhibiting the divergence of C3. -/
def c3Payload : Json := .obj [("ref", .str "refs/heads/refs/heads/main")]

/-- Counterexample for C3: on `ref = "refs/heads/refs/heads/main"` the
the `.replace` call of the code removes every occurrence and
yields `to_branch = "main"`, while the leading-only strip of the claim
yields `"refs/heads/main"`. -/
theorem claim_C3_counterexample :
    normalize (some "push") c3Payload "t0" =
      .ok (some { request_id := .str "unknown", author := .str "Unknown",
                  action := "PUSH", from_branch := .null,
                  to_branch := .str "main", timestamp := "t0" }) ∧
    specStripLeading "refs/heads/refs/heads/main" = "refs/heads/main" ∧
    "main" ≠ "refs/heads/main" :=
  ⟨rfl, rfl, by decide⟩

/-- Claim C3 as amended: for a push payload that is a dict whose
`pusher` (if present) is a dict and whose `ref` (if present) is a
string, normalization yields action PUSH, request_id from `after`
(default `unknown`), author from `pusher.name` (default `Unknown`),
null from_branch, and to_branch equal to `ref` with every occurrence
of `refs/heads/` removed (empty string when `ref` is absent). -/
theorem claim_C3_amended (p : Json) (now : String) (hp : isObj p = true)
    (hpu : objOrAbsent p "pusher" = true)
    (hr : strOrAbsent p "ref" = true) :
    normalize (some "push") p now = .ok (some (specPushEvent p now)) :=
  normalize_push_eq p now hp hpu hr

/-- The push example payload given in the specification. -/
def c3wPayload : Json :=
  .obj [("after", .str "sha1"), ("pusher", .obj [("name", .str "alice")]),
        ("ref", .str "refs/heads/main")]

/-- Witness for C3 (amended), at the push example of the spec. -/
theorem claim_C3_amended_witness :
    isObj c3wPayload = true ∧ objOrAbsent c3wPayload "pusher" = true ∧
    strOrAbsent c3wPayload "ref" = true ∧
    normalize (some "push") c3wPayload "t" =
      .ok (some (specPushEvent c3wPayload "t")) :=
  ⟨rfl, rfl, rfl, claim_C3_amended c3wPayload "t" rfl rfl rfl⟩

/-- The payload exhibiting the divergence of C4: `merged` is the truthy
string `"x"`, which is not the boolean `true`. -/
def c4Payload : Json :=
  .obj [("action", .str "closed"),
        ("pull_request", .obj [("merged", .str "x")])]

/-- Counterexample for C4: the code tests `pr.get("merged")` for
truthiness, not equality with `true`, so a closed pull_request whose
`merged` is the string `"x"` is normalized to a MERGE event even
though `merged == true` is false. -/
theorem claim_C4_counterexample :
    normalize (some "pull_request") c4Payload "t" =
      .ok (some { request_id := .str "unknown", author := .str "Unknown",
                  action := "MERGE", from_branch := .str "unknown",
                  to_branch := .str "unknown", timestamp := "t" }) ∧
    jGetD (prOf c4Payload) "merged" .null = .str "x" ∧
    Json.str "x" ≠ Json.bool true :=
  ⟨rfl, rfl, fun hc => Json.noConfusion hc⟩

/-- Claim C4 as amended: for dict-shaped pull_request payloads,
normalization yields a MERGE event exactly when the action is
`closed` and `pull_request.merged` is truthy (not necessarily the
boolean `true`); the fields of the event are merge_commit_sha or `unknown`,
merged_by.login or `Unknown`, head.ref or `unknown`, base.ref or
`unknown`; and `closed` with falsy `merged` yields none. -/
theorem claim_C4_amended (p : Json) (now : String) :
    ((prClosedShape p = true ∧ jGetD p "action" Json.null = .str "closed" ∧
        (jGetD (prOf p) "merged" Json.null).truthy = true) →
      normalize (some "pull_request") p now =
        .ok (some (specMergeEvent p now))) ∧
    (∀ ed, normalize (some "pull_request") p now = .ok (some ed) →
      ed.action = "MERGE" →
      jGetD p "action" Json.null = .str "closed" ∧
      (jGetD (prOf p) "merged" Json.null).truthy = true) ∧
    ((prClosedShape p = true ∧ jGetD p "action" Json.null = .str "closed" ∧
        (jGetD (prOf p) "merged" Json.null).truthy = false) →
      normalize (some "pull_request") p now = .ok none) := by
  refine ⟨?_, ?_, ?_⟩
  · rintro ⟨hs, ha, hm⟩
    rw [normalize_closed_eq p now hs ha, if_pos hm]
  · intro ed h hm
    exact normalize_merge_action p now ed h hm
  · rintro ⟨hs, ha, hm⟩
    rw [normalize_closed_eq p now hs ha, if_neg (by simp [hm])]

/-- The merged-pull-request example payload given in the specification. -/
def c4wPayload : Json :=
  .obj [("action", .str "closed"),
        ("pull_request",
          .obj [("merged", .bool true), ("merge_commit_sha", .str "sha9"),
                ("merged_by", .obj [("login", .str "carol")])])]

/-- Witness for C4 (amended), at the merge example of the spec. -/
theorem claim_C4_amended_witness :
    prClosedShape c4wPayload = true ∧
    jGetD c4wPayload "action" Json.null = .str "closed" ∧
    (jGetD (prOf c4wPayload) "merged" Json.null).truthy = true ∧
    normalize (some "pull_request") c4wPayload "t" =
      .ok (some (specMergeEvent c4wPayload "t")) :=
  ⟨rfl, rfl, rfl,
    (claim_C4_amended c4wPayload "t").1 ⟨rfl, rfl, rfl⟩⟩

/-- The payload exhibiting the divergence of C5: `user` present and null. -/
def c5Payload : Json :=
  .obj [("action", .str "opened"),
        ("pull_request", .obj [("user", .null)])]

/-- Counterexample for C5: the claim says every opened pull_request
payload normalizes to a PULL_REQUEST event, but a payload whose
`pull_request.user` is present and null makes
`pr.get("user", {}).get("login", "Unknown")` call `.get` on `None`,
raising `AttributeError`, so no event is produced. -/
theorem claim_C5_counterexample :
    normalize (some "pull_request") c5Payload "t" =
      .error .attributeError := rfl

/-- Claim C5 as amended: for a dict-shaped pull_request payload with
action `opened` or `reopened`, whose `pull_request`, `user`, `head`
and `base` values (when present) are dicts, normalization yields a
PULL_REQUEST event with request_id `str(pull_request.id)` (default
`unknown`), author `user.login` (default `Unknown`), from_branch
`head.ref` (default `unknown`), to_branch `base.ref` (default
`unknown`). -/
theorem claim_C5_amended (p : Json) (now : String)
    (hs : prOpenedShape p = true)
    (ha : isStrVal (jGetD p "action" .null) "opened" = true ∨
      isStrVal (jGetD p "action" .null) "reopened" = true) :
    normalize (some "pull_request") p now =
      .ok (some (specOpenedEvent p now)) :=
  normalize_opened_eq p now hs ha

/-- The opened-pull-request example payload given in the specification. -/
def c5wPayload : Json :=
  .obj [("action", .str "opened"),
        ("pull_request",
          .obj [("id", .num 42), ("user", .obj [("login", .str "bob")]),
                ("head", .obj [("ref", .str "feat")]),
                ("base", .obj [("ref", .str "main")])])]

/-- Witness for C5 (amended), at the opened example of the spec. -/
theorem claim_C5_amended_witness :
    prOpenedShape c5wPayload = true ∧
    isStrVal (jGetD c5wPayload "action" .null) "opened" = true ∧
    normalize (some "pull_request") c5wPayload "t" =
      .ok (some (specOpenedEvent c5wPayload "t")) :=
  ⟨rfl, rfl, claim_C5_amended c5wPayload "t" rfl (Or.inl rfl)⟩

/-- Push payload with an explicit null `after`. -/
def c6aPayload : Json := .obj [("after", .null)]

/-- The event the code inserts for `c6aPayload`: its `request_id` is
null. -/
def c6aEvent : EventData :=
  { request_id := .null, author := .str "Unknown", action := "PUSH",
    from_branch := .null, to_branch := .str "", timestamp := "t" }

/-- Opened pull_request payload with an explicit null `head.ref`. -/
def c6bPayload : Json :=
  .obj [("action", .str "opened"),
        ("pull_request", .obj [("head", .obj [("ref", .null)])])]

/-- The event the code inserts for `c6bPayload`: `from_branch` is null
although the action is PULL_REQUEST. -/
def c6bEvent : EventData :=
  { request_id := .str "unknown", author := .str "Unknown",
    action := "PULL_REQUEST", from_branch := .null,
    to_branch := .str "unknown", timestamp := "t" }

/-- Counterexample for C6: `.get(key, default)` only defaults when the
key is absent, so a payload carrying an explicit null at an extracted
leaf persists that null.  A push with `after: null` inserts a record
with null `request_id`; an opened pull_request with `head.ref: null`
inserts a record whose `from_branch` is null although its action is
PULL_REQUEST, not PUSH. -/
theorem claim_C6_counterexample :
    receiver (fun _ _ => "00") none (some "push") none ""
      (some c6aPayload) "t" true [] = (.success "0", [⟨0, c6aEvent⟩]) ∧
    c6aEvent.request_id = Json.null ∧
    receiver (fun _ _ => "00") none (some "pull_request") none ""
      (some c6bPayload) "t" true [] = (.success "0", [⟨0, c6bEvent⟩]) ∧
    c6bEvent.from_branch = Json.null ∧
    c6bEvent.action = "PULL_REQUEST" ∧ "PULL_REQUEST" ≠ "PUSH" :=
  ⟨rfl, rfl, rfl, rfl, rfl, by decide⟩

/-- Claim C6 as amended: every record the endpoint passes to the
store insert operation has an action that is exactly one of PUSH,
PULL_REQUEST, MERGE, and when the action is PUSH its `from_branch` is
null.  (The further assertions of the claim — that no other field is ever
null and that `from_branch` is null only for PUSH — fail when the
payload carries explicit nulls at extracted leaves; see the
counterexample.) -/
theorem claim_C6_amended (hmacHex : String → String → String)
    (secret et sig : Option String) (rawBody : String)
    (parsed : Option Json) (now : String) (dbOk : Bool)
    (store : List StoredEvent) :
    (receiver hmacHex secret et sig rawBody parsed now dbOk store).2 =
      store ∨
    ∃ ed, (receiver hmacHex secret et sig rawBody parsed now dbOk store).2 =
        store ++ [⟨store.length, ed⟩] ∧
      (ed.action = "PUSH" ∨ ed.action = "PULL_REQUEST" ∨
        ed.action = "MERGE") ∧
      (ed.action = "PUSH" → ed.from_branch = Json.null) := by
  unfold receiver
  split
  · left
    rfl
  · split
    · left
      rfl
    · rename_i payload
      split
      · left
        rfl
      · split
        · left
          rfl
        · rename_i ed hn
          split
          · right
            exact ⟨ed, rfl, normalize_ok_action et payload now ed hn⟩
          · left
            rfl
        · split
          · left
            rfl
          · left
            rfl

/-- Witness for C6 (amended), at a concrete push delivery. -/
theorem claim_C6_amended_witness :
    (receiver (fun _ _ => "00") none (some "push") none ""
        (some c3wPayload) "t" true []).2 = [] ∨
    ∃ ed, (receiver (fun _ _ => "00") none (some "push") none ""
        (some c3wPayload) "t" true []).2 = [] ++ [⟨0, ed⟩] ∧
      (ed.action = "PUSH" ∨ ed.action = "PULL_REQUEST" ∨
        ed.action = "MERGE") ∧
      (ed.action = "PUSH" → ed.from_branch = Json.null) :=
  claim_C6_amended (fun _ _ => "00") none (some "push") none "" (some c3wPayload)
    "t" true []

/-- Claim C7: with a real (non-empty, non-placeholder) secret
configured and signature verification failing, the endpoint responds
401 invalid-signature and stops.  The response and final store are
stated for arbitrary parse outcome, payload, timestamp and insert
availability, so nothing after the gate influences the result, and the
store is returned unchanged. -/
theorem claim_C7_signature_reject (hmacHex : String → String → String)
    (s : String) (hne : s ≠ "") (hnp : s ≠ placeholderSecret)
    (et sig : Option String) (rawBody : String) (parsed : Option Json)
    (now : String) (dbOk : Bool) (store : List StoredEvent)
    (hv : verify_webhook_signature hmacHex rawBody sig (some s) = false) :
    receiver hmacHex (some s) et sig rawBody parsed now dbOk store =
      (.invalidSignature, store) ∧
    httpStatus .invalidSignature = 401 := by
  constructor
  · have hgate : sigGateRejects hmacHex (some s) sig rawBody = true := by
      simp [sigGateRejects, optStrFalsy, hv, hne, hnp]
    unfold receiver
    rw [if_pos hgate]
  · rfl

/-- Witness for C7: concrete rejected delivery. -/
theorem claim_C7_signature_reject_witness :
    ("sec" : String) ≠ "" ∧ ("sec" : String) ≠ placeholderSecret ∧
    verify_webhook_signature (fun _ _ => "00") "" none (some "sec") = false ∧
    receiver (fun _ _ => "00") (some "sec") (some "push") none ""
      (some (.obj [("a", .num 1)])) "t" true [] = (.invalidSignature, []) :=
  ⟨by simp, by simp [placeholderSecret], rfl,
    (claim_C7_signature_reject (fun _ _ => "00") "sec" (by simp)
      (by simp [placeholderSecret]) (some "push") none ""
      (some (.obj [("a", .num 1)])) "t" true [] rfl).1⟩

/-- Counterexample for C8: a verified, parsed, non-empty payload whose
event type is not handled (`issues`) but which is a JSON array, not an
object.  The final log line of the ignored branch evaluates
`payload.get("action", "no action")`, which raises `AttributeError` on
a list, so the endpoint surfaces an internal error instead of the
claimed 200 ignored response. -/
theorem claim_C8_counterexample :
    receiver (fun _ _ => "00") none (some "issues") none ""
      (some (.arr [.num 1])) "t" true [] = (.pythonError, []) ∧
    Resp.pythonError ≠ Resp.ignored ∧
    httpStatus .pythonError = 500 :=
  ⟨rfl, by decide, rfl⟩

/-- Claim C8 as amended: for every verified, parsed, truthy payload
that is a JSON object, if normalization yields no event (any event
type other than push/pull_request, or an unhandled pull_request
action), the endpoint responds 200 ignored and the store is
unchanged.  (Truthy non-object payloads instead raise in the logging of the ignored
branch; see the counterexample.) -/
theorem claim_C8_amended (hmacHex : String → String → String)
    (secret et sig : Option String) (rawBody : String) (payload : Json)
    (now : String) (dbOk : Bool) (store : List StoredEvent)
    (hsig : sigGateRejects hmacHex secret sig rawBody = false)
    (ht : payload.truthy = true) (hobj : isObj payload = true)
    (hn : normalize et payload now = .ok none) :
    receiver hmacHex secret et sig rawBody (some payload) now dbOk store =
      (.ignored, store) ∧
    httpStatus .ignored = 200 := by
  constructor
  · unfold receiver
    rw [if_neg (by simp [hsig])]
    simp only [ht, Bool.not_true, Bool.false_eq_true, if_false, hn,
      pyGet_of_isObj _ _ _ hobj]
  · rfl

/-- Witness for C8 (amended): an `issues` delivery with an object
payload is ignored with a 200 and no insert. -/
theorem claim_C8_amended_witness :
    sigGateRejects (fun _ _ => "00") none none "" = false ∧
    Json.truthy (.obj [("a", .num 1)]) = true ∧
    isObj (.obj [("a", .num 1)]) = true ∧
    normalize (some "issues") (.obj [("a", .num 1)]) "t" = .ok none ∧
    receiver (fun _ _ => "00") none (some "issues") none ""
      (some (.obj [("a", .num 1)])) "t" true [] = (.ignored, []) :=
  ⟨rfl, rfl, rfl, rfl,
    (claim_C8_amended (fun _ _ => "00") none (some "issues") none ""
      (.obj [("a", .num 1)]) "t" true [] rfl rfl rfl rfl).1⟩

/-- Claim C10: a body that parses successfully to a falsy JSON value
(empty object, empty array, null, false, 0, empty string) is answered
with 400 no-payload, with no normalization and no insert: the result
holds for every event type, timestamp and insert availability, and the
store is returned unchanged. -/
theorem claim_C10_falsy_payload (hmacHex : String → String → String)
    (secret et sig : Option String) (rawBody : String) (j : Json)
    (now : String) (dbOk : Bool) (store : List StoredEvent)
    (hsig : sigGateRejects hmacHex secret sig rawBody = false)
    (hf : j.truthy = false) :
    receiver hmacHex secret et sig rawBody (some j) now dbOk store =
      (.noPayload, store) ∧
    httpStatus .noPayload = 400 := by
  constructor
  · unfold receiver
    rw [if_neg (by simp [hsig])]
    simp only [hf, Bool.not_false, if_true]
  · rfl

/-- Witness for C10: the empty JSON object is rejected as no-payload. -/
theorem claim_C10_falsy_payload_witness :
    sigGateRejects (fun _ _ => "00") none none "" = false ∧
    Json.truthy (.obj []) = false ∧
    receiver (fun _ _ => "00") none (some "push") none "" (some (.obj []))
      "t" true [] = (.noPayload, []) :=
  ⟨rfl, rfl,
    (claim_C10_falsy_payload (fun _ _ => "00") none (some "push") none ""
      (.obj []) "t" true [] rfl rfl).1⟩

/-- Claim C9: `GET /api/events` responds 200 with at most 10 events,
ordered by timestamp descending (newest first), each drawn from the
store with its store-assigned id rendered as a string; fewer than 10
when the store holds fewer records, and the empty list for an empty
store. -/
theorem claim_C9_events_query (store : List StoredEvent) :
    (get_events store).1 = 200 ∧
    (get_events store).2.length = min 10 store.length ∧
    List.Pairwise (fun a b => b.2.timestamp ≤ a.2.timestamp)
      (get_events store).2 ∧
    (∀ x ∈ (get_events store).2, ∃ e ∈ store, x = (toString e.oid, e.data)) ∧
    (store = [] → (get_events store).2 = []) := by
  refine ⟨rfl, ?_, ?_, ?_, ?_⟩
  · simp [get_events]
  · have hs : List.Sorted tsGe (List.insertionSort tsGe store) :=
      List.sorted_insertionSort tsGe store
    have htake : List.Sorted tsGe ((List.insertionSort tsGe store).take 10) :=
      List.Pairwise.sublist (List.take_sublist _ _) hs
    unfold get_events
    rw [List.pairwise_map]
    exact htake
  · intro x hx
    simp only [get_events, List.mem_map] at hx
    obtain ⟨e, he, rfl⟩ := hx
    have hmem : e ∈ List.insertionSort tsGe store :=
      (List.take_sublist _ _).subset he
    exact ⟨e, (List.mem_insertionSort tsGe).mp hmem, rfl⟩
  · intro h
    subst h
    rfl

/-- Witness for C9: the empty store yields the empty list. -/
theorem claim_C9_events_query_witness : (get_events []).2 = [] :=
  (claim_C9_events_query []).2.2.2.2 rfl

end Webhook
